import Mathlib

/-!
Verification of the Karbowanec RPC gateway (src/src/Rpc/RpcServer.cpp).

The development shallowly embeds the handlers of RpcServer.cpp over explicit
environments: every external collaborator (blockchain core, mempool, p2p
stack, miner, cryptographic primitives, codec helpers) is a field of an
environment record, and each handler is a pure Lean function of its request
and that environment, returning the response it builds (for JSON-RPC
handlers, an Except whose error side is the thrown JsonRpcError).  Machine
integers are modelled as Nat, with an explicit modulus 2^64 wherever the
C++ computation can wrap.  Byte buffers are lists of Nat.
-/

set_option autoImplicit false

namespace KarboRpc

/-- A JSON-RPC structured error as thrown by the handlers: an integer code
and a message (JsonRpcError in the source). -/
structure RpcError where
  code : Int
  message : String
deriving DecidableEq

/-- Modelled from the spec: CoreRpcServerErrorCodes.h is not under src/.
Section 6 of the spec names the error-code taxonomy (wrong parameter,
too-big height, too-big reserve size, wrong wallet address, internal error,
wrong block blob, block not accepted, core busy) and states the numeric
values are a protocol contract; the definitions below only serve as
distinct named codes. -/
def CORE_RPC_ERROR_CODE_WRONG_PARAM : Int := -1

def CORE_RPC_ERROR_CODE_TOO_BIG_HEIGHT : Int := -2

def CORE_RPC_ERROR_CODE_TOO_BIG_RESERVE_SIZE : Int := -3

def CORE_RPC_ERROR_CODE_WRONG_WALLET_ADDRESS : Int := -4

def CORE_RPC_ERROR_CODE_INTERNAL_ERROR : Int := -5

def CORE_RPC_ERROR_CODE_WRONG_BLOCKBLOB : Int := -6

def CORE_RPC_ERROR_CODE_BLOCK_NOT_ACCEPTED : Int := -7

def CORE_RPC_ERROR_CODE_CORE_BUSY : Int := -9

/-- Modelled from the spec: JsonRpc.h is not under src/; the JSON-RPC 2.0
method-not-found code used by the sub-dispatcher. -/
def errMethodNotFound : Int := -32601

/-- Modelled from the spec: JsonRpc.h is not under src/; the JSON-RPC 2.0
internal-error code that any uncaught handler fault is converted to. -/
def errInternalError : Int := -32603

/-- CORE_RPC_STATUS_OK, the success value of the in-band status field. -/
def CORE_RPC_STATUS_OK : String := "OK"

/-- Modelled from the spec: TransactionExtra.h is not under src/;
TX_EXTRA_NONCE_MAX_COUNT is the fixed maximum reserve size, 255 (the
rejection message in on_getblocktemplate spells the bound out). -/
def TX_EXTRA_NONCE_MAX_COUNT : Nat := 255

/-! ## slow_memmem (RpcServer.cpp lines 976-991)

The byte-pattern search used by on_getblocktemplate.  The C loop repeatedly
memchr-scans for the first byte of the pattern; a candidate position past
`end = start + buflen - patlen` returns 0, a full memcmp match returns the
offset, otherwise the scan resumes one byte further.  The model steps one
position at a time, which visits exactly the candidate positions the C scan
visits and applies the end check at first-byte matches, as the C code does. -/

/-- The pattern `pat` occurs in `buff` at byte offset `j` (all of `pat`
inside the buffer). -/
def occursAt (buff pat : List Nat) (j : Nat) : Prop :=
  (buff.drop j).take pat.length = pat

instance occursAt_decidable (buff pat : List Nat) (j : Nat) : Decidable (occursAt buff pat j) := by
  unfold occursAt; infer_instance

/-- One step of the slow_memmem loop at candidate offset `j`, with enough
fuel to reach the end of the buffer. -/
def slow_memmemAux (buff pat : List Nat) : Nat → Nat → Nat
  | 0, _ => 0
  | fuel + 1, j =>
    if j < buff.length then
      if buff.getD j 0 = pat.headD 0 then
        if buff.length < j + pat.length then 0
        else if occursAt buff pat j then j
        else slow_memmemAux buff pat fuel (j + 1)
      else slow_memmemAux buff pat fuel (j + 1)
    else 0

/-- slow_memmem: offset of the first in-bounds occurrence of `pat` in
`buff`, and 0 when the pattern is not found (0 is also returned for a match
at offset 0, which the caller treats as absence). -/
def slow_memmem (buff pat : List Nat) : Nat :=
  slow_memmemAux buff pat (buff.length + 1) 0

/-! ## on_getblocktemplate (RpcServer.cpp lines 993-1045) -/

/-- What one call of m_core.get_block_template, toBinaryArray,
getTransactionPublicKeyFromExtra and get_block_hashing_blob yields for the
fresh candidate block: its serialized blob, the coinbase transaction public
key bytes, whether that key differed from NULL_PUBLIC_KEY, the difficulty
and height outputs, and the hashing blob (none when
get_block_hashing_blob fails). -/
structure BlockTemplateResult where
  block_blob : List Nat
  tx_pub_key : List Nat
  pub_key_found : Bool
  difficulty : Nat
  height : Nat
  hashing_blob : Option (List Nat)

/-- External collaborators of on_getblocktemplate: the address parser of
the currency and the block-template production of the core (a function of
the requested reserve size, since the reserve blob of that many zero bytes
is passed in). -/
structure GetBlockTemplateEnv where
  parseAccountAddressString : String → Option Nat
  get_block_template : Nat → Option BlockTemplateResult

/-- The response of getblocktemplate (blobs kept as byte lists; the source
hex-encodes them on the wire). -/
structure GbtRes where
  difficulty : Nat
  height : Nat
  reserved_offset : Nat
  blocktemplate_blob : List Nat
  blockhashing_blob : List Nat
  status : String
deriving DecidableEq

/-- on_getblocktemplate: reject a reserve size over the maximum, reject an
empty or unparsable wallet address, obtain the candidate block, require the
coinbase public key, and for a positive reserve size locate that key in the
serialized blob by slow_memmem; offset 0 means not found; the reserved
region starts sizeof(tx_pub_key) = 32 plus 3 tag bytes after the match and
must fit in the blob, else internal error. -/
def on_getblocktemplate (env : GetBlockTemplateEnv) (reserve_size : Nat)
    (wallet_address : String) : Except RpcError GbtRes :=
  if TX_EXTRA_NONCE_MAX_COUNT < reserve_size then
    Except.error { code := CORE_RPC_ERROR_CODE_TOO_BIG_RESERVE_SIZE,
                   message := "To big reserved size, maximum 255" }
  else if wallet_address.isEmpty || (env.parseAccountAddressString wallet_address).isNone then
    Except.error { code := CORE_RPC_ERROR_CODE_WRONG_WALLET_ADDRESS,
                   message := "Failed to parse wallet address" }
  else
    match env.get_block_template reserve_size with
    | none =>
      Except.error { code := CORE_RPC_ERROR_CODE_INTERNAL_ERROR,
                     message := "Internal error: failed to create block template" }
    | some t =>
      if t.pub_key_found = false then
        Except.error { code := CORE_RPC_ERROR_CODE_INTERNAL_ERROR,
                       message := "Internal error: failed to find tx pub key in coinbase extra" }
      else
        let offsetStep : Except RpcError Nat :=
          if 0 < reserve_size then
            let off := slow_memmem t.block_blob t.tx_pub_key
            if off = 0 then
              Except.error { code := CORE_RPC_ERROR_CODE_INTERNAL_ERROR,
                             message := "Internal error: failed to create block template" }
            else
              let ro := off + 32 + 3
              if t.block_blob.length < ro + reserve_size then
                Except.error { code := CORE_RPC_ERROR_CODE_INTERNAL_ERROR,
                               message := "Internal error: failed to create block template" }
              else Except.ok ro
          else Except.ok 0
        match offsetStep with
        | Except.error e => Except.error e
        | Except.ok ro =>
          match t.hashing_blob with
          | none =>
            Except.error { code := CORE_RPC_ERROR_CODE_INTERNAL_ERROR,
                           message := "Internal error: failed to get blockhashing_blob" }
          | some hb =>
            Except.ok { difficulty := t.difficulty, height := t.height,
                        reserved_offset := ro, blocktemplate_blob := t.block_blob,
                        blockhashing_blob := hb, status := CORE_RPC_STATUS_OK }

/-! ## on_get_blocks (RpcServer.cpp lines 265-300)

The fast chain-sync handler.  To settle the no-further-engine-calls part of
the claim, the handler is embedded with an explicit trace of the engine
calls it performs, in order. -/

/-- One serialized block with the serialized transactions it carries, as
built into the get_blocks response. -/
structure RawBlockM where
  block : List Nat
  txs : List (List Nat)
deriving DecidableEq

/-- The get_blocks (fast) response; the fields start zero-initialized
(boost::value_initialized) and status is set on every path. -/
structure GetBlocksFastRes where
  blocks : List RawBlockM
  start_height : Nat
  current_height : Nat
  status : String
deriving DecidableEq

/-- The engine calls on_get_blocks can make, recorded for the trace. -/
inductive EngineCall
  | blockIdByHeight (h : Nat)
  | supplementSearch (ids : List Nat)
  | blockRetrieval (id : Nat)
deriving DecidableEq

/-- External collaborators of on_get_blocks: block id at a height, the
blockchain-supplement search (returning the supplement ids, the total block
count and the start index), and full-block retrieval by id. -/
structure GetBlocksEnv where
  getBlockIdByHeight : Nat → Nat
  findBlockchainSupplement : List Nat → List Nat × Nat × Nat
  getBlock : Nat → RawBlockM

/-- on_get_blocks: an empty locator fails; a locator whose last id is not
the id at height 0 fails; otherwise the supplement is searched and each
supplement block retrieved and serialized into the response.  The returned
triple is (handler return value, response, engine calls made in order). -/
def on_get_blocks (env : GetBlocksEnv) (block_ids : List Nat) :
    Bool × GetBlocksFastRes × List EngineCall :=
  if block_ids.isEmpty then
    (false, { blocks := [], start_height := 0, current_height := 0, status := "Failed" }, [])
  else if block_ids.getLast? ≠ some (env.getBlockIdByHeight 0) then
    (false, { blocks := [], start_height := 0, current_height := 0, status := "Failed" },
     [EngineCall.blockIdByHeight 0])
  else
    let r := env.findBlockchainSupplement block_ids
    let supplement := r.1
    let totalBlockCount := r.2.1
    let startBlockIndex := r.2.2
    (true,
     { blocks := supplement.map env.getBlock,
       start_height := startBlockIndex,
       current_height := totalBlockCount,
       status := CORE_RPC_STATUS_OK },
     EngineCall.blockIdByHeight 0 :: EngineCall.supplementSearch block_ids ::
       supplement.map EngineCall.blockRetrieval)

/-- True for the engine calls the rejection path must not make: the
blockchain-supplement search. -/
def isSupplementCall : EngineCall → Bool
  | EngineCall.supplementSearch _ => true
  | _ => false

/-- True for the engine calls the rejection path must not make: full-block
retrieval. -/
def isRetrievalCall : EngineCall → Bool
  | EngineCall.blockRetrieval _ => true
  | _ => false

/-! ## on_submitblock (RpcServer.cpp lines 1053-1073) -/

/-- block_verification_context, as filled by
m_core.handle_incoming_block_blob. -/
structure BlockVerificationContext where
  m_added_to_main_chain : Bool
  m_verification_failed : Bool
  m_marked_as_orphaned : Bool
  m_already_exists : Bool
deriving DecidableEq

/-- External collaborators of on_submitblock.  Modelled from the spec for
the decoder: Common fromHex is not under src/; it is the hex decoder of a
parameter string, failing on malformed hex. -/
structure SubmitBlockEnv where
  fromHex : String → Option (List Nat)
  handle_incoming_block_blob : List Nat → BlockVerificationContext

/-- The submitblock success response (only a status field). -/
structure SubmitBlockRes where
  status : String
deriving DecidableEq

/-- on_submitblock: exactly one parameter, hex-decoded into the block blob,
handed to the core; failure to reach the main chain raises the
block-not-accepted error, otherwise status OK. -/
def on_submitblock (env : SubmitBlockEnv) (req : List String) :
    Except RpcError SubmitBlockRes :=
  if req.length ≠ 1 then
    Except.error { code := CORE_RPC_ERROR_CODE_WRONG_PARAM, message := "Wrong param" }
  else
    match env.fromHex (req.headD "") with
    | none =>
      Except.error { code := CORE_RPC_ERROR_CODE_WRONG_BLOCKBLOB, message := "Wrong block blob" }
    | some blockblob =>
      let bvc := env.handle_incoming_block_blob blockblob
      if bvc.m_added_to_main_chain = false then
        Except.error { code := CORE_RPC_ERROR_CODE_BLOCK_NOT_ACCEPTED,
                       message := "Block not accepted" }
      else
        Except.ok { status := CORE_RPC_STATUS_OK }

/-! ## processJsonRpcRequest (RpcServer.cpp lines 142-203)

The JSON-RPC sub-dispatcher.  A handler body either returns a payload,
throws a JsonRpcError, or throws some other exception; the embedding sums
these three outcomes.  The envelope operations setId and setError are
modelled from the spec (JsonRpc.h is not under src/): setId stores the
echoed id, setError stores the error object, and a success payload is
attached only when the handler returns normally. -/

/-- Outcome of running a JSON-RPC handler body: normal return with a
payload, a thrown JsonRpcError, or a thrown generic exception with its
what() message. -/
inductive HandlerOutcome
  | ok (payload : Nat)
  | jsonErr (e : RpcError)
  | fault (msg : String)

/-- A parsed JSON-RPC request envelope: the opaque id, the method name, and
the (opaque) params. -/
structure JsonRpcRequestM where
  id : Nat
  method : String
  params : Nat

/-- The JSON-RPC response envelope: the echoed id and the optional result
and error members. -/
structure JsonRpcResponseM where
  id : Nat
  result : Option Nat
  error : Option RpcError
deriving DecidableEq

/-- Modelled from the spec: JsonRpcResponse::setError (JsonRpc.h, not under
src/) stores the structured error object in the envelope. -/
def setErrorResp (r : JsonRpcResponseM) (e : RpcError) : JsonRpcResponseM :=
  { r with error := some e }

/-- Modelled from the spec: the success payload is attached to the envelope
when the handler returns normally (JsonRpc.h makeMemberMethod, not under
src/). -/
def setResultResp (r : JsonRpcResponseM) (p : Nat) : JsonRpcResponseM :=
  { r with result := some p }

/-- processJsonRpcRequest for an envelope that parsed: copy the id, look the
method up, raise method-not-found for an unknown name, core-busy for a
gated method while the node is not ready, run the handler otherwise, and
map a thrown JsonRpcError to itself and any other exception to
internal-error with its message. -/
def processJsonRpcRequest (table : String → Option ((Nat → HandlerOutcome) × Bool))
    (coreReady : Bool) (req : JsonRpcRequestM) : JsonRpcResponseM :=
  let base : JsonRpcResponseM := { id := req.id, result := none, error := none }
  match table req.method with
  | none => setErrorResp base { code := errMethodNotFound, message := "Method not found" }
  | some (h, allowBusyCore) =>
    if !allowBusyCore && !coreReady then
      setErrorResp base { code := CORE_RPC_ERROR_CODE_CORE_BUSY, message := "Core is busy" }
    else
      match h req.params with
      | HandlerOutcome.ok p => setResultResp base p
      | HandlerOutcome.jsonErr e => setErrorResp base e
      | HandlerOutcome.fault m =>
        setErrorResp base { code := errInternalError, message := m }

/-! ## processRequest and the method table (RpcServer.cpp lines 89-140, 232-234) -/

/-- The static method table s_handlers: URL path and allowBusyCore flag for
every entry, as populated at lines 89-116 (the bound handler functions are
irrelevant to dispatch and omitted). -/
def s_handlers : List (String × Bool) :=
  [("/getblocks.bin", false),
   ("/queryblocks.bin", false),
   ("/queryblockslite.bin", false),
   ("/get_o_indexes.bin", false),
   ("/getrandom_outs.bin", false),
   ("/get_pool_changes.bin", false),
   ("/get_pool_changes_lite.bin", false),
   ("/getinfo", true),
   ("/getheight", true),
   ("/gettransactions", false),
   ("/sendrawtransaction", false),
   ("/feeaddress", true),
   ("/peers", true),
   ("/paymentid", true),
   ("/start_mining", false),
   ("/stop_mining", false),
   ("/stop_daemon", true),
   ("/json_rpc", true)]

/-- Exact-key lookup in the method table (std::unordered_map::find). -/
def findHandler : List (String × Bool) → String → Option Bool
  | [], _ => none
  | (p, b) :: rest, url => if p = url then some b else findHandler rest url

/-- isCoreReady: testnet mode, or the protocol reports synchronized. -/
def isCoreReady (isTestnet isSynchronized : Bool) : Bool :=
  isTestnet || isSynchronized

/-- Outcome of the outer HTTP dispatch: 404 without running a handler, 500
with a diagnostic body without running a handler, or invocation of the
bound handler of the url. -/
inductive RequestOutcome
  | notFound
  | busyRejected (status : Nat) (body : String)
  | invoked (url : String)
deriving DecidableEq

/-- processRequest: exact url lookup; unknown url is 404; a known url whose
entry disallows a busy core while the core is not ready is 500 with body
Core is busy; otherwise the handler runs. -/
def processRequest (isTestnet isSynchronized : Bool) (url : String) : RequestOutcome :=
  match findHandler s_handlers url with
  | none => RequestOutcome.notFound
  | some allowBusyCore =>
    if !allowBusyCore && !isCoreReady isTestnet isSynchronized then
      RequestOutcome.busyRejected 500 "Core is busy"
    else
      RequestOutcome.invoked url

/-! ## on_start_mining, on_stop_mining, on_stop_daemon
(RpcServer.cpp lines 519-567)

Each handler is embedded with the trace of miner/network-stack operations
it performs, to settle the never-invokes part of the restricted-mode
claim. -/

/-- The restricted-relevant configuration and collaborators: the restricted
flag, the address parser, the miner start/stop results, and the testnet
flag consulted by stop_daemon. -/
structure MiningEnv where
  restricted : Bool
  parseAccountAddressString : String → Option Nat
  minerStart : Nat → Nat → Bool
  minerStop : Bool
  isTestnet : Bool

/-- The miner and network-stack operations the three operator handlers can
perform, recorded for the trace. -/
inductive OperatorEffect
  | parseAddress (s : String)
  | minerStart (adr : Nat) (threads : Nat)
  | minerStop
  | sendStopSignal
deriving DecidableEq

/-- Status of on_stop_daemon outside testnet: the C++ assigns the int
CORE_RPC_ERROR_CODE_INTERNAL_ERROR (-5) to the std::string status, which
selects the char assignment operator and yields this one-char string. -/
def internalErrorStatusChar : String := "\xFB"

/-- on_start_mining: rejected at once in restricted mode; otherwise parse
the miner address and start the miner.  Returns
(handler return value, status, effects in order). -/
def on_start_mining (env : MiningEnv) (miner_address : String) (threads_count : Nat) :
    Bool × String × List OperatorEffect :=
  if env.restricted then (false, "Failed, restricted handle", [])
  else
    match env.parseAccountAddressString miner_address with
    | none => (true, "Failed, wrong address", [OperatorEffect.parseAddress miner_address])
    | some adr =>
      if env.minerStart adr threads_count = false then
        (true, "Failed, mining not started",
         [OperatorEffect.parseAddress miner_address, OperatorEffect.minerStart adr threads_count])
      else
        (true, CORE_RPC_STATUS_OK,
         [OperatorEffect.parseAddress miner_address, OperatorEffect.minerStart adr threads_count])

/-- on_stop_mining: rejected at once in restricted mode; otherwise stop the
miner. -/
def on_stop_mining (env : MiningEnv) : Bool × String × List OperatorEffect :=
  if env.restricted then (false, "Failed, restricted handle", [])
  else if env.minerStop = false then
    (true, "Failed, mining not stopped", [OperatorEffect.minerStop])
  else (true, CORE_RPC_STATUS_OK, [OperatorEffect.minerStop])

/-- on_stop_daemon: rejected at once in restricted mode; on testnet sends
the stop signal; otherwise fails without any effect. -/
def on_stop_daemon (env : MiningEnv) : Bool × String × List OperatorEffect :=
  if env.restricted then (false, "Failed, restricted handle", [])
  else if env.isTestnet then (true, CORE_RPC_STATUS_OK, [OperatorEffect.sendStopSignal])
  else (false, internalErrorStatusChar, [])

/-! ## Transactions

The transaction data the handlers inspect: inputs and outputs are tagged
unions (boost::variant of BaseInput / KeyInput / MultisignatureInput and of
KeyOutput / MultisignatureOutput), amounts are 64-bit, extra is a byte
sequence.  Keys, key images and hashes are abstracted to Nat. -/

/-- A transaction output target: a one-time key output or a multisignature
output. -/
inductive OutTarget
  | key (k : Nat)
  | multisig (requiredSignatureCount : Nat) (keys : List Nat)
deriving DecidableEq

/-- A transaction output: its amount and its target. -/
structure TxOutput where
  amount : Nat
  target : OutTarget
deriving DecidableEq

/-- A transaction input: the coinbase input, a key input, or a
multisignature input. -/
inductive TxInput
  | base (blockIndex : Nat)
  | keyIn (amount : Nat) (outputIndexes : List Nat) (keyImage : Nat)
  | multisigIn (amount : Nat) (signatureCount : Nat) (outputIndex : Nat)
deriving DecidableEq

/-- A transaction (its prefix part: the handlers only read inputs, outputs
and extra). -/
structure Transaction where
  inputs : List TxInput
  outputs : List TxOutput
  extra : List Nat
deriving DecidableEq

/-- 2^64, the modulus of the 64-bit amount arithmetic. -/
def U64 : Nat := 2 ^ 64

/-- 64-bit addition with wraparound. -/
def add64 (a b : Nat) : Nat := (a + b) % U64

/-- 64-bit subtraction with wraparound (for a, b below 2^64). -/
def sub64 (a b : Nat) : Nat := (a + U64 - b) % U64

/-- The amount an input carries (a base input carries none). -/
def inputAmount : TxInput → Nat
  | TxInput.base _ => 0
  | TxInput.keyIn a _ _ => a
  | TxInput.multisigIn a _ _ => a

/-- Modelled from the spec: get_inputs_money_amount
(CryptoNoteFormatUtils, not under src/) sums the input amounts in a 64-bit
accumulator. -/
def get_inputs_money_amount (tx : Transaction) : Nat :=
  tx.inputs.foldl (fun acc i => add64 acc (inputAmount i)) 0

/-- Modelled from the spec: get_outs_money_amount
(CryptoNoteFormatUtils, not under src/) sums the output amounts in a
64-bit accumulator. -/
def get_outs_money_amount (tx : Transaction) : Nat :=
  tx.outputs.foldl (fun acc o => add64 acc o.amount) 0

/-- Modelled from the spec: getInputAmount (TransactionUtils, not under
src/), the sum of the input amounts, as used by f_on_pool_json. -/
def getInputAmount (tx : Transaction) : Nat :=
  tx.inputs.foldl (fun acc i => add64 acc (inputAmount i)) 0

/-- Modelled from the spec: getOutputAmount (TransactionUtils, not under
src/), the sum of the output amounts, as used by f_on_pool_json. -/
def getOutputAmount (tx : Transaction) : Nat :=
  tx.outputs.foldl (fun acc o => add64 acc o.amount) 0

/-! ## k_on_check_tx_key and k_on_check_tx_with_view_key
(RpcServer.cpp lines 1167-1237 and 1239-1319) -/

/-- A recipient account address: its spend and view public keys. -/
structure AccountPublicAddress where
  spendPublicKey : Nat
  viewPublicKey : Nat
deriving DecidableEq

/-- External collaborators shared by the two payment-proof handlers:
parsers, the transaction fetch, the elliptic-curve primitives (the
derive_public_key primitive never signals failure to these handlers: its
return value is ignored at lines 1220 and 1295), the tx-extra public key
extraction, and the containing-block lookup used for confirmations. -/
structure PaymentProofEnv where
  parse_hash256 : String → Option Nat
  parseAccountAddressString : String → Option AccountPublicAddress
  fromHex32 : String → Option Nat
  getTransaction : Nat → Option Transaction
  generate_key_derivation : Nat → Nat → Option Nat
  derive_public_key : Nat → Nat → Nat → Nat
  getTransactionPublicKeyFromExtra : List Nat → Nat
  getBlockContainingTx : Nat → Option (Nat × Nat)
  observedHeight : Nat

/-- The check_tx_key request. -/
structure CheckTxKeyReq where
  txid : String
  address : String
  txkey : String

/-- The check_tx_with_view_key request. -/
structure CheckTxViewKeyReq where
  txid : String
  address : String
  view_key : String

/-- The check_tx_key response. -/
structure CheckTxKeyRes where
  amount : Nat
  outputs : List TxOutput
  status : String
deriving DecidableEq

/-- The check_tx_with_view_key response. -/
structure CheckTxViewKeyRes where
  amount : Nat
  outputs : List TxOutput
  confirmations : Nat
  status : String
deriving DecidableEq

/-- The output scan of k_on_check_tx_key (lines 1211-1227): walk the
outputs with a key index advanced for every output, and for each key-type
output compare the derived one-time key with the output key, accumulating
the received amount in the 64-bit counter (received += o.amount wraps
modulo 2^64) together with the matching outputs. -/
def checkTxKeyScan (derive : Nat → Nat → Nat → Nat) (derivation spendPublicKey : Nat) :
    List TxOutput → Nat → Nat × List TxOutput
  | [], _ => (0, [])
  | o :: rest, keyIndex =>
    let next := checkTxKeyScan derive derivation spendPublicKey rest (keyIndex + 1)
    match o.target with
    | OutTarget.key outKey =>
      let pubkey := derive derivation keyIndex spendPublicKey
      if pubkey = outKey then (add64 o.amount next.1, o :: next.2) else next
    | OutTarget.multisig _ _ => next

/-- The output scan of k_on_check_tx_with_view_key (lines 1286-1302),
textually the same loop as in k_on_check_tx_key, with the same 64-bit
received accumulator. -/
def checkTxViewKeyScan (derive : Nat → Nat → Nat → Nat) (derivation spendPublicKey : Nat) :
    List TxOutput → Nat → Nat × List TxOutput
  | [], _ => (0, [])
  | o :: rest, keyIndex =>
    let next := checkTxViewKeyScan derive derivation spendPublicKey rest (keyIndex + 1)
    match o.target with
    | OutTarget.key outKey =>
      let pubkey := derive derivation keyIndex spendPublicKey
      if pubkey = outKey then (add64 o.amount next.1, o :: next.2) else next
    | OutTarget.multisig _ _ => next

/-- The key-type outputs of the list whose derived one-time key (at the key
index of their position, counted from `i`) equals their output key: the
reference description of what both scans select. -/
def matchedOutputsFrom (derive : Nat → Nat → Nat → Nat) (derivation spendPublicKey : Nat) :
    Nat → List TxOutput → List TxOutput
  | _, [] => []
  | i, o :: rest =>
    match o.target with
    | OutTarget.key outKey =>
      if derive derivation i spendPublicKey = outKey then
        o :: matchedOutputsFrom derive derivation spendPublicKey (i + 1) rest
      else matchedOutputsFrom derive derivation spendPublicKey (i + 1) rest
    | OutTarget.multisig _ _ => matchedOutputsFrom derive derivation spendPublicKey (i + 1) rest

/-- k_on_check_tx_key: parse txid, address and the transaction secret key,
fetch the transaction, derive from (recipient view public key, transaction
secret key), and scan the outputs. -/
def k_on_check_tx_key (env : PaymentProofEnv) (req : CheckTxKeyReq) :
    Except RpcError CheckTxKeyRes :=
  match env.parse_hash256 req.txid with
  | none => Except.error { code := CORE_RPC_ERROR_CODE_WRONG_PARAM,
                           message := "Failed to parse txid" }
  | some txid =>
    match env.parseAccountAddressString req.address with
    | none => Except.error { code := CORE_RPC_ERROR_CODE_WRONG_PARAM,
                             message := "Failed to parse address " ++ req.address ++ "." }
    | some address =>
      match env.fromHex32 req.txkey with
      | none => Except.error { code := CORE_RPC_ERROR_CODE_WRONG_PARAM,
                               message := "Failed to parse txkey" }
      | some tx_key =>
        match env.getTransaction txid with
        | none => Except.error { code := CORE_RPC_ERROR_CODE_WRONG_PARAM,
                                 message := "Could not find transaction with hash: " ++ req.txid ++ "." }
        | some tx =>
          match env.generate_key_derivation address.viewPublicKey tx_key with
          | none => Except.error { code := CORE_RPC_ERROR_CODE_WRONG_PARAM,
                                   message := "Failed to generate key derivation from supplied parameters" }
          | some derivation =>
            let scan := checkTxKeyScan env.derive_public_key derivation
              address.spendPublicKey tx.outputs 0
            Except.ok { amount := scan.1, outputs := scan.2, status := CORE_RPC_STATUS_OK }

/-- k_on_check_tx_with_view_key: parse txid, address and the private view
key, fetch the transaction, read the transaction public key from extra,
derive from (transaction public key, private view key), scan the outputs,
and add the confirmation count when the containing block is known. -/
def k_on_check_tx_with_view_key (env : PaymentProofEnv) (req : CheckTxViewKeyReq) :
    Except RpcError CheckTxViewKeyRes :=
  match env.parse_hash256 req.txid with
  | none => Except.error { code := CORE_RPC_ERROR_CODE_WRONG_PARAM,
                           message := "Failed to parse txid" }
  | some txid =>
    match env.parseAccountAddressString req.address with
    | none => Except.error { code := CORE_RPC_ERROR_CODE_WRONG_PARAM,
                             message := "Failed to parse address " ++ req.address ++ "." }
    | some address =>
      match env.fromHex32 req.view_key with
      | none => Except.error { code := CORE_RPC_ERROR_CODE_WRONG_PARAM,
                               message := "Failed to parse private view key" }
      | some viewKey =>
        match env.getTransaction txid with
        | none => Except.error { code := CORE_RPC_ERROR_CODE_WRONG_PARAM,
                                 message := "Could not find transaction with hash: " ++ req.txid ++ "." }
        | some tx =>
          let txPubKey := env.getTransactionPublicKeyFromExtra tx.extra
          match env.generate_key_derivation txPubKey viewKey with
          | none => Except.error { code := CORE_RPC_ERROR_CODE_WRONG_PARAM,
                                   message := "Failed to generate key derivation from supplied parameters" }
          | some derivation =>
            let scan := checkTxViewKeyScan env.derive_public_key derivation
              address.spendPublicKey tx.outputs 0
            let confirmations :=
              match env.getBlockContainingTx txid with
              | some br => env.observedHeight - br.2
              | none => 0
            Except.ok { amount := scan.1, outputs := scan.2,
                        confirmations := confirmations, status := CORE_RPC_STATUS_OK }

/-! ## Transaction short views
(f_on_pool_json lines 860-876, f_on_transaction_json lines 832-841,
f_on_block_json lines 753-781) -/

/-- Modelled from the spec: parameters::MINIMUM_FEE (CryptoNoteConfig.h,
not under src/) is the fixed positive minimum transaction fee of the
currency (0.1 KRB with 12 decimal places); only its positivity matters
below. -/
def MINIMUM_FEE : Nat := 100000000000

/-- f_transaction_short_response: hash, fee, output amount and size of one
transaction. -/
structure FTransactionShortResponse where
  hash : String
  fee : Nat
  amount_out : Nat
  size : Nat
deriving DecidableEq

/-- External helpers of the short views: object hash, binary size and hex
printing (getObjectHash, getObjectBinarySize, podToHex; all outside
src/). -/
structure ShortViewEnv where
  getObjectHash : Transaction → Nat
  getObjectBinarySize : Transaction → Nat
  podToHex : Nat → String

/-- The short view f_on_pool_json builds for one pool transaction (lines
862-872): the fee field is MINIMUM_FEE whenever
amount_in < amount_out + MINIMUM_FEE and amount_in - amount_out otherwise
(64-bit arithmetic). -/
def poolTxShortView (env : ShortViewEnv) (tx : Transaction) : FTransactionShortResponse :=
  let amount_in := getInputAmount tx
  let amount_out := getOutputAmount tx
  { hash := env.podToHex (env.getObjectHash tx)
    fee := if amount_in < add64 amount_out MINIMUM_FEE then MINIMUM_FEE
           else sub64 amount_in amount_out
    amount_out := amount_out
    size := env.getObjectBinarySize tx }

/-- f_on_pool_json: one short view per pool transaction, and the status. -/
def f_on_pool_json (env : ShortViewEnv) (pool : List Transaction) :
    List FTransactionShortResponse × String :=
  (pool.map (poolTxShortView env), CORE_RPC_STATUS_OK)

/-- The short view f_on_block_json builds for the base transaction of the
block (lines 753-759): fee 0. -/
def blockBaseTxShortView (env : ShortViewEnv) (baseTransaction : Transaction) :
    FTransactionShortResponse :=
  { hash := env.podToHex (env.getObjectHash baseTransaction)
    fee := 0
    amount_out := get_outs_money_amount baseTransaction
    size := env.getObjectBinarySize baseTransaction }

/-- The short view f_on_block_json builds for one included transaction
(lines 768-778): fee = amount_in - amount_out (64-bit arithmetic). -/
def blockTxShortView (env : ShortViewEnv) (tx : Transaction) : FTransactionShortResponse :=
  let amount_in := get_inputs_money_amount tx
  let amount_out := get_outs_money_amount tx
  { hash := env.podToHex (env.getObjectHash tx)
    fee := sub64 amount_in amount_out
    amount_out := amount_out
    size := env.getObjectBinarySize tx }

/-- The transaction rows built by f_on_block_json: first the base
transaction with fee 0, then one row per included transaction. -/
def f_on_block_json_transactions (env : ShortViewEnv) (baseTransaction : Transaction)
    (txs : List Transaction) : List FTransactionShortResponse :=
  blockBaseTxShortView env baseTransaction :: txs.map (blockTxShortView env)

/-- The txDetails short view built by f_on_transaction_json (lines
832-841): fee is amount_in - amount_out (64-bit arithmetic), overwritten
with 0 when amount_in = 0. -/
def f_on_transaction_json_details (env : ShortViewEnv) (tx : Transaction) :
    FTransactionShortResponse :=
  let amount_in := get_inputs_money_amount tx
  let amount_out := get_outs_money_amount tx
  let fee0 := sub64 amount_in amount_out
  { hash := env.podToHex (env.getObjectHash tx)
    fee := if amount_in = 0 then 0 else fee0
    amount_out := amount_out
    size := env.getObjectBinarySize tx }

/-! ## on_get_transactions (RpcServer.cpp lines 438-467)

The handler is embedded with the full history of assignments to
res.status, so that the overwriting of the size-mismatch status can be
stated; it also returns the hash list handed to m_core.getTransactions. -/

/-- External collaborators of on_get_transactions: the hex decoder of a
hash string, the reinterpretation of the decoded bytes as a pod hash, the
transaction lookup (found transactions and missed ids), and the hex
printers of blobs and ids (all outside src/). -/
structure GetTransactionsEnv where
  fromHex : String → Option (List Nat)
  hashOfBytes : List Nat → Nat
  getTransactions : List Nat → List Transaction × List Nat
  txBlobHex : Transaction → String
  podToHex : Nat → String

/-- The on_get_transactions response, with statusHistory recording every
assignment to res.status in order (the wire response carries only the last
one). -/
structure GetTxsRes where
  txs_as_hex : List String
  missed_tx : List String
  statusHistory : List String
deriving DecidableEq

/-- The parsing loop of on_get_transactions: a hex failure returns at once
with its failure status (the error side carries the status assignments
made so far, the failure status last); a decoded value of the wrong byte
length assigns the size-mismatch status and falls through, still pushing
the reinterpreted hash. -/
def getTransactionsParseLoop (env : GetTransactionsEnv) :
    List String → Except (List String) (List Nat × List String)
  | [] => Except.ok ([], [])
  | s :: rest =>
    match env.fromHex s with
    | none => Except.error ["Failed to parse hex representation of transaction hash"]
    | some b =>
      let here : List String :=
        if b.length ≠ 32 then ["Failed, size of data mismatch"] else []
      match getTransactionsParseLoop env rest with
      | Except.error e => Except.error (here ++ e)
      | Except.ok (hs, hist) => Except.ok (env.hashOfBytes b :: hs, here ++ hist)

/-- on_get_transactions: parse all hash strings (with the loop above), look
the hashes up, fill the found and missed lists, and set status OK.  Returns
the response and the hash list handed to the engine ([] when the parse
loop returned early). -/
def on_get_transactions (env : GetTransactionsEnv) (txs_hashes : List String) :
    GetTxsRes × List Nat :=
  match getTransactionsParseLoop env txs_hashes with
  | Except.error e =>
    ({ txs_as_hex := [], missed_tx := [], statusHistory := e }, [])
  | Except.ok (vh, hist) =>
    let r := env.getTransactions vh
    ({ txs_as_hex := r.1.map env.txBlobHex,
       missed_tx := r.2.map env.podToHex,
       statusHistory := hist ++ [CORE_RPC_STATUS_OK] }, vh)

/-! ## f_on_blocks_list_json (RpcServer.cpp lines 607-651)

The descending loop runs from the requested height down to last_height
(30 below it, clamped to 0), emitting one short block row per height; the
explicit break at height 0 prevents the uint32 wraparound of the loop
counter.  In the model the break is the i = 0 base case, the decrement is
structural, and the two-step computation of last_height (a wrapping
subtraction overwritten by the clamp for small heights) collapses to its
net effect. -/

/-- f_block_short_response: the fields filled per listed block (hash kept
abstract through the environment printers). -/
structure FBlockShortResponse where
  timestamp : Nat
  height : Nat
  hash : String
  cumul_size : Nat
  tx_count : Nat
  difficulty : Nat
  min_tx_fee : Nat
deriving DecidableEq

/-- The per-block data f_on_blocks_list_json reads from the core: the
block itself (timestamp and number of carried transaction hashes) and its
sizes. -/
structure BlockListedData where
  timestamp : Nat
  transactionHashCount : Nat
  blockBinarySize : Nat
  baseTransactionBinarySize : Nat
  cumulativeSize : Nat
deriving DecidableEq

/-- External collaborators of f_on_blocks_list_json: current height, block
id by height, block data by id (none models a getBlockByHash failure,
which the handler turns into an internal error), difficulty and minimal
fee by height, and the id printer. -/
structure BlocksListEnv where
  currentHeight : Nat
  getBlockIdByHeight : Nat → Nat
  getBlockByHash : Nat → Option BlockListedData
  getBlockDifficulty : Nat → Nat
  getMinimalFeeForHeight : Nat → Nat
  podToHex : Nat → String

/-- The short row built for height `i` from its block data (lines
634-641); cumul_size is block blob size plus cumulative transactions size
minus the miner transaction blob size. -/
def mkBlockShort (env : BlocksListEnv) (i : Nat) (blockHash : Nat)
    (blk : BlockListedData) : FBlockShortResponse :=
  { timestamp := blk.timestamp
    height := i
    hash := env.podToHex blockHash
    cumul_size := blk.blockBinarySize + blk.cumulativeSize - blk.baseTransactionBinarySize
    tx_count := blk.transactionHashCount + 1
    difficulty := env.getBlockDifficulty i
    min_tx_fee := env.getMinimalFeeForHeight i }

/-- The descending loop of f_on_blocks_list_json, from height `i` down to
`last` (inclusive), with the break at 0. -/
def blocksListLoop (env : BlocksListEnv) (last : Nat) : Nat → Except RpcError (List FBlockShortResponse)
  | 0 =>
    let blockHash := env.getBlockIdByHeight 0
    match env.getBlockByHash blockHash with
    | none => Except.error { code := CORE_RPC_ERROR_CODE_INTERNAL_ERROR,
                             message := "Internal error: cannot get block by height. Height = 0." }
    | some blk => Except.ok [mkBlockShort env 0 blockHash blk]
  | i + 1 =>
    let blockHash := env.getBlockIdByHeight (i + 1)
    match env.getBlockByHash blockHash with
    | none => Except.error { code := CORE_RPC_ERROR_CODE_INTERNAL_ERROR,
                             message := "Internal error: cannot get block by height." }
    | some blk =>
      let row := mkBlockShort env (i + 1) blockHash blk
      if last ≤ i then
        match blocksListLoop env last i with
        | Except.error e => Except.error e
        | Except.ok rows => Except.ok (row :: rows)
      else Except.ok [row]

/-- The f_blocks_list_json response. -/
structure BlocksListRes where
  blocks : List FBlockShortResponse
  status : String
deriving DecidableEq

/-- f_on_blocks_list_json: a height at or beyond the current blockchain
height raises too-big-height; otherwise the loop lists the blocks from the
requested height down to 30 below it (clamped to 0). -/
def f_on_blocks_list_json (env : BlocksListEnv) (height : Nat) :
    Except RpcError BlocksListRes :=
  if env.currentHeight ≤ height then
    Except.error { code := CORE_RPC_ERROR_CODE_TOO_BIG_HEIGHT,
                   message := "To big height" }
  else
    let print_blocks_count := 30
    let last_height := if height ≤ print_blocks_count then 0 else height - print_blocks_count
    match blocksListLoop env last_height height with
    | Except.error e => Except.error e
    | Except.ok rows => Except.ok { blocks := rows, status := CORE_RPC_STATUS_OK }

/-! ## Concrete sample data used by the witness instances -/

/-- A candidate block template whose serialized blob carries the 32-byte
coinbase public key at offset 1, followed by 5 spare bytes. -/
def sampleTemplate : BlockTemplateResult :=
  { block_blob := 0 :: (List.replicate 32 7 ++ List.replicate 5 0)
    tx_pub_key := List.replicate 32 7
    pub_key_found := true
    difficulty := 1
    height := 2
    hashing_blob := some [1, 2] }

/-- A getblocktemplate environment producing sampleTemplate. -/
def sampleGbtEnv : GetBlockTemplateEnv :=
  { parseAccountAddressString := fun _ => some 1
    get_block_template := fun _ => some sampleTemplate }

/-- A chain environment whose genesis id is 100. -/
def sampleGetBlocksEnv : GetBlocksEnv :=
  { getBlockIdByHeight := fun _ => 100
    findBlockchainSupplement := fun ids => (ids, 0, 0)
    getBlock := fun _ => { block := [], txs := [] } }

/-- A submitblock environment whose core accepts the block only onto a side
branch (never the main chain). -/
def sampleSubmitEnv : SubmitBlockEnv :=
  { fromHex := fun s => if s = "ab" then some [171] else none
    handle_incoming_block_blob := fun _ =>
      { m_added_to_main_chain := false, m_verification_failed := false,
        m_marked_as_orphaned := true, m_already_exists := false } }

/-- A restricted-mode configuration. -/
def sampleMiningEnv : MiningEnv :=
  { restricted := true
    parseAccountAddressString := fun _ => none
    minerStart := fun _ _ => false
    minerStop := false
    isTestnet := false }

/-- A transaction with two matching key outputs (indices 0 and 3 under the
sample derivation), one non-matching key output and one multisignature
output in between. -/
def sampleProofTx : Transaction :=
  { inputs := [TxInput.keyIn 9 [1] 4]
    outputs := [{ amount := 5, target := OutTarget.key 47 },
                { amount := 9, target := OutTarget.key 1000 },
                { amount := 6, target := OutTarget.multisig 1 [2] },
                { amount := 8, target := OutTarget.key 50 }]
    extra := [2] }

/-- A payment-proof environment in which the transaction-key material
(view public key 4, transaction secret key 11) and the view-key material
(transaction public key 2 from extra, view secret key 22) derive the same
key derivation 44. -/
def sampleProofEnv : PaymentProofEnv :=
  { parse_hash256 := fun s => if s = "t1" then some 7 else none
    parseAccountAddressString := fun s =>
      if s = "ad" then some { spendPublicKey := 3, viewPublicKey := 4 } else none
    fromHex32 := fun s => if s = "k1" then some 11 else if s = "k2" then some 22 else none
    getTransaction := fun t => if t = 7 then some sampleProofTx else none
    generate_key_derivation := fun p s => some (p * s)
    derive_public_key := fun d i s => d + i + s
    getTransactionPublicKeyFromExtra := fun l => l.headD 0
    getBlockContainingTx := fun _ => none
    observedHeight := 0 }

/-- A short-view environment with constant externals. -/
def cexShortViewEnv : ShortViewEnv :=
  { getObjectHash := fun _ => 0
    getObjectBinarySize := fun _ => 0
    podToHex := fun _ => "h" }

/-- A pool transaction whose input sum equals its output sum (true fee 0). -/
def cexPoolTx : Transaction :=
  { inputs := [TxInput.keyIn 5 [0] 1]
    outputs := [{ amount := 5, target := OutTarget.key 2 }]
    extra := [] }

/-- A pool transaction paying more than the minimum fee. -/
def sampleFeePoolTx : Transaction :=
  { inputs := [TxInput.keyIn (MINIMUM_FEE + 5) [0] 1]
    outputs := [{ amount := 5, target := OutTarget.key 2 }]
    extra := [] }

/-- A transaction with input sum 7 and output sum 2. -/
def sampleFeeTx : Transaction :=
  { inputs := [TxInput.keyIn 7 [0] 1]
    outputs := [{ amount := 2, target := OutTarget.key 2 }]
    extra := [] }

/-- A get_transactions environment decoding the string full to 32 bytes and
the string short to 2 bytes. -/
def sampleGetTxsEnv : GetTransactionsEnv :=
  { fromHex := fun s =>
      if s = "full" then some (List.replicate 32 0)
      else if s = "short" then some [1, 2] else none
    hashOfBytes := fun b => b.length
    getTransactions := fun hs => ([], hs)
    txBlobHex := fun _ => "x"
    podToHex := fun _ => "y" }

/-- A blocks-list environment at current height 100 where every block
lookup succeeds. -/
def sampleBlocksListEnv : BlocksListEnv :=
  { currentHeight := 100
    getBlockIdByHeight := fun i => i
    getBlockByHash := fun _ => some
      { timestamp := 0, transactionHashCount := 0, blockBinarySize := 0,
        baseTransactionBinarySize := 0, cumulativeSize := 0 }
    getBlockDifficulty := fun _ => 0
    getMinimalFeeForHeight := fun _ => 0
    podToHex := fun _ => "z" }

/-! ## Lemmas about slow_memmem -/

/-- A nonzero result of the slow_memmem loop is an offset at which the
pattern occurs in the buffer. -/
theorem slow_memmemAux_occurs (buff pat : List Nat) :
    ∀ fuel j, slow_memmemAux buff pat fuel j ≠ 0 →
      occursAt buff pat (slow_memmemAux buff pat fuel j) := by
  intro fuel
  induction fuel with
  | zero => intro j h; simp [slow_memmemAux] at h
  | succ n ih =>
    intro j h
    unfold slow_memmemAux at h ⊢
    by_cases h1 : j < buff.length
    · simp only [if_pos h1] at h ⊢
      by_cases h2 : buff.getD j 0 = pat.headD 0
      · simp only [if_pos h2] at h ⊢
        by_cases h3 : buff.length < j + pat.length
        · simp only [if_pos h3] at h; exact absurd rfl h
        · simp only [if_neg h3] at h ⊢
          by_cases h4 : occursAt buff pat j
          · simp only [if_pos h4] at h ⊢; exact h4
          · simp only [if_neg h4] at h ⊢; exact ih (j + 1) h
      · simp only [if_neg h2] at h ⊢; exact ih (j + 1) h
    · simp only [if_neg h1] at h; exact absurd rfl h

/-- A nonzero slow_memmem result is an offset at which the pattern occurs. -/
theorem slow_memmem_occurs (buff pat : List Nat) (h : slow_memmem buff pat ≠ 0) :
    occursAt buff pat (slow_memmem buff pat) :=
  slow_memmemAux_occurs buff pat (buff.length + 1) 0 h

/-! ## C1: getblocktemplate reserved offset -/

/-- C1: for every getblocktemplate call with 0 < reserve_size <= 255 that
succeeds, the returned reserved_offset equals the byte offset at which the
coinbase transaction public key occurs in the serialized block template
(the slow_memmem search result, a genuine occurrence), plus the size of
that key (32 bytes), plus 3; reserved_offset + reserve_size does not exceed
the blob length; and when the key cannot be located by the byte-pattern
search (offset 0) or the computed region does not fit, the call fails with
the internal-error code instead of returning. -/
theorem getblocktemplate_reserved_offset_c1
    (env : GetBlockTemplateEnv) (reserve_size : Nat) (wallet_address : String)
    (t : BlockTemplateResult)
    (hrs0 : 0 < reserve_size) (hrs : reserve_size ≤ 255)
    (ht : env.get_block_template reserve_size = some t)
    (hkey : t.tx_pub_key.length = 32) :
    (∀ res, on_getblocktemplate env reserve_size wallet_address = Except.ok res →
       slow_memmem t.block_blob t.tx_pub_key ≠ 0 ∧
       occursAt t.block_blob t.tx_pub_key (slow_memmem t.block_blob t.tx_pub_key) ∧
       res.reserved_offset = slow_memmem t.block_blob t.tx_pub_key + t.tx_pub_key.length + 3 ∧
       res.reserved_offset + reserve_size ≤ t.block_blob.length) ∧
    ((slow_memmem t.block_blob t.tx_pub_key = 0 ∨
        t.block_blob.length <
          slow_memmem t.block_blob t.tx_pub_key + t.tx_pub_key.length + 3 + reserve_size) →
      (wallet_address.isEmpty || (env.parseAccountAddressString wallet_address).isNone) = false →
      t.pub_key_found = true →
      ∃ e, on_getblocktemplate env reserve_size wallet_address = Except.error e ∧
        e.code = CORE_RPC_ERROR_CODE_INTERNAL_ERROR) := by
  have hmax : ¬ (TX_EXTRA_NONCE_MAX_COUNT < reserve_size) := by
    simp only [TX_EXTRA_NONCE_MAX_COUNT]; omega
  constructor
  · intro res hok
    unfold on_getblocktemplate at hok
    rw [if_neg hmax] at hok
    by_cases haddr : (wallet_address.isEmpty || (env.parseAccountAddressString wallet_address).isNone) = true
    · rw [if_pos haddr] at hok; simp at hok
    · rw [if_neg haddr] at hok
      simp only [ht] at hok
      by_cases hpk : t.pub_key_found = false
      · rw [if_pos hpk] at hok; simp at hok
      · rw [if_neg hpk] at hok
        simp only [if_pos hrs0] at hok
        by_cases hoff : slow_memmem t.block_blob t.tx_pub_key = 0
        · rw [if_pos hoff] at hok; simp at hok
        · rw [if_neg hoff] at hok
          by_cases hfit : t.block_blob.length <
              slow_memmem t.block_blob t.tx_pub_key + 32 + 3 + reserve_size
          · rw [if_pos hfit] at hok; simp at hok
          · rw [if_neg hfit] at hok
            cases hhb : t.hashing_blob with
            | none => rw [hhb] at hok; simp at hok
            | some hb =>
              rw [hhb] at hok
              simp only [Except.ok.injEq] at hok
              have hres : res.reserved_offset =
                  slow_memmem t.block_blob t.tx_pub_key + 32 + 3 := by
                rw [← hok]
              refine ⟨hoff, slow_memmem_occurs _ _ hoff, ?_, ?_⟩
              · rw [hres, hkey]
              · rw [hres]; omega
  · intro hbad haddr hpk
    rw [hkey] at hbad
    unfold on_getblocktemplate
    rw [if_neg hmax, if_neg (by simp [haddr])]
    simp only [ht]
    rw [if_neg (by simp [hpk])]
    simp only [if_pos hrs0]
    rcases hbad with hoff | hfit
    · rw [if_pos hoff]
      exact ⟨_, rfl, rfl⟩
    · by_cases hoff : slow_memmem t.block_blob t.tx_pub_key = 0
      · rw [if_pos hoff]
        exact ⟨_, rfl, rfl⟩
      · rw [if_neg hoff, if_pos hfit]
        exact ⟨_, rfl, rfl⟩

/-- Witness for C1 at a concrete template: the key occurs at offset 1 in
the 38-byte blob, reserved_offset is 36, and with reserve_size 2 the
region exactly fits. -/
theorem getblocktemplate_reserved_offset_c1_witness :
    (∀ res, on_getblocktemplate sampleGbtEnv 2 "A" = Except.ok res →
       slow_memmem sampleTemplate.block_blob sampleTemplate.tx_pub_key ≠ 0 ∧
       occursAt sampleTemplate.block_blob sampleTemplate.tx_pub_key
         (slow_memmem sampleTemplate.block_blob sampleTemplate.tx_pub_key) ∧
       res.reserved_offset =
         slow_memmem sampleTemplate.block_blob sampleTemplate.tx_pub_key +
           sampleTemplate.tx_pub_key.length + 3 ∧
       res.reserved_offset + 2 ≤ sampleTemplate.block_blob.length) ∧
    ((slow_memmem sampleTemplate.block_blob sampleTemplate.tx_pub_key = 0 ∨
        sampleTemplate.block_blob.length <
          slow_memmem sampleTemplate.block_blob sampleTemplate.tx_pub_key +
            sampleTemplate.tx_pub_key.length + 3 + 2) →
      ("A".isEmpty || (sampleGbtEnv.parseAccountAddressString "A").isNone) = false →
      sampleTemplate.pub_key_found = true →
      ∃ e, on_getblocktemplate sampleGbtEnv 2 "A" = Except.error e ∧
        e.code = CORE_RPC_ERROR_CODE_INTERNAL_ERROR) :=
  getblocktemplate_reserved_offset_c1 sampleGbtEnv 2 "A" sampleTemplate
    (by decide) (by decide) rfl (by decide)

/-! ## C2: get_blocks rejects a non-genesis-anchored locator -/

/-- C2: for every get_blocks (fast) request whose locator's last id is not
the block id at height 0, the handler returns false with status Failed and
the only engine call made is the genesis-id lookup of the comparison
itself: no blockchain-supplement search, no block retrieval, and the
response carries no blocks. -/
theorem get_blocks_rejects_non_genesis_locator_c2
    (env : GetBlocksEnv) (block_ids : List Nat)
    (hne : block_ids ≠ [])
    (hlast : block_ids.getLast? ≠ some (env.getBlockIdByHeight 0)) :
    on_get_blocks env block_ids =
      (false,
       { blocks := [], start_height := 0, current_height := 0, status := "Failed" },
       [EngineCall.blockIdByHeight 0]) := by
  unfold on_get_blocks
  rw [if_neg (by simp [hne]), if_pos hlast]

/-- Witness for C2: a one-id locator whose id differs from the genesis id
of the sample chain. -/
theorem get_blocks_rejects_non_genesis_locator_c2_witness :
    on_get_blocks sampleGetBlocksEnv [5] =
      (false,
       { blocks := [], start_height := 0, current_height := 0, status := "Failed" },
       [EngineCall.blockIdByHeight 0]) :=
  get_blocks_rejects_non_genesis_locator_c2 sampleGetBlocksEnv [5]
    (by decide) (by decide)

/-! ## C3: submitblock accepts only main-chain blocks -/

/-- C3: for every submitblock request whose hex-decoded block blob is
handed to the core but not added to the main chain (including blocks
accepted only onto a side branch), the handler raises the JSON-RPC error
with the block-not-accepted code and message Block not accepted; it
returns status OK if and only if the block is added to the main chain. -/
theorem submitblock_main_chain_only_c3
    (env : SubmitBlockEnv) (s : String) (blob : List Nat)
    (hdec : env.fromHex s = some blob) :
    ((env.handle_incoming_block_blob blob).m_added_to_main_chain = false →
       on_submitblock env [s] =
         Except.error { code := CORE_RPC_ERROR_CODE_BLOCK_NOT_ACCEPTED,
                        message := "Block not accepted" }) ∧
    ((∃ r, on_submitblock env [s] = Except.ok r ∧ r.status = CORE_RPC_STATUS_OK) ↔
       (env.handle_incoming_block_blob blob).m_added_to_main_chain = true) := by
  have hlen : ¬ (([s] : List String).length ≠ 1) := by simp
  constructor
  · intro hnot
    unfold on_submitblock
    rw [if_neg hlen]
    simp only [List.headD, hdec]
    rw [if_pos hnot]
  · constructor
    · rintro ⟨r, hr, -⟩
      unfold on_submitblock at hr
      rw [if_neg hlen] at hr
      simp only [List.headD, hdec] at hr
      by_cases hm : (env.handle_incoming_block_blob blob).m_added_to_main_chain = false
      · rw [if_pos hm] at hr; simp at hr
      · simpa using hm
    · intro hadd
      unfold on_submitblock
      rw [if_neg hlen]
      simp only [List.headD, hdec]
      rw [if_neg (by simp [hadd])]
      exact ⟨_, rfl, rfl⟩

/-- Witness for C3: a core that accepts the decoded blob only onto a side
branch; the handler raises block-not-accepted and has no OK outcome. -/
theorem submitblock_main_chain_only_c3_witness :
    ((sampleSubmitEnv.handle_incoming_block_blob [171]).m_added_to_main_chain = false →
       on_submitblock sampleSubmitEnv ["ab"] =
         Except.error { code := CORE_RPC_ERROR_CODE_BLOCK_NOT_ACCEPTED,
                        message := "Block not accepted" }) ∧
    ((∃ r, on_submitblock sampleSubmitEnv ["ab"] = Except.ok r ∧
        r.status = CORE_RPC_STATUS_OK) ↔
       (sampleSubmitEnv.handle_incoming_block_blob [171]).m_added_to_main_chain = true) :=
  submitblock_main_chain_only_c3 sampleSubmitEnv "ab" [171] (by decide)

/-! ## C4: the JSON-RPC envelope invariant -/

/-- C4: for every JSON-RPC request whose envelope parses, the response
echoes the request id unchanged and carries at most one of a success
payload or an error object, never both, on every path: handler success,
method-not-found, core-busy, a handler-raised structured error, and a
generic handler fault converted to internal-error. -/
theorem json_rpc_envelope_c4 :
    ∀ (table : String → Option ((Nat → HandlerOutcome) × Bool)) (coreReady : Bool)
      (req : JsonRpcRequestM),
      (processJsonRpcRequest table coreReady req).id = req.id ∧
      ((processJsonRpcRequest table coreReady req).result.isSome &&
        (processJsonRpcRequest table coreReady req).error.isSome) = false ∧
      (table req.method = none →
        (processJsonRpcRequest table coreReady req).error =
          some { code := errMethodNotFound, message := "Method not found" } ∧
        (processJsonRpcRequest table coreReady req).result = none) ∧
      (∀ h allow, table req.method = some (h, allow) → (!allow && !coreReady) = true →
        (processJsonRpcRequest table coreReady req).error =
          some { code := CORE_RPC_ERROR_CODE_CORE_BUSY, message := "Core is busy" } ∧
        (processJsonRpcRequest table coreReady req).result = none) ∧
      (∀ h allow p, table req.method = some (h, allow) → (!allow && !coreReady) = false →
        h req.params = HandlerOutcome.ok p →
        (processJsonRpcRequest table coreReady req).result = some p ∧
        (processJsonRpcRequest table coreReady req).error = none) ∧
      (∀ h allow e, table req.method = some (h, allow) → (!allow && !coreReady) = false →
        h req.params = HandlerOutcome.jsonErr e →
        (processJsonRpcRequest table coreReady req).error = some e ∧
        (processJsonRpcRequest table coreReady req).result = none) ∧
      (∀ h allow m, table req.method = some (h, allow) → (!allow && !coreReady) = false →
        h req.params = HandlerOutcome.fault m →
        (processJsonRpcRequest table coreReady req).error =
          some { code := errInternalError, message := m } ∧
        (processJsonRpcRequest table coreReady req).result = none) := by
  intro table coreReady req
  cases htab : table req.method with
  | none => simp [processJsonRpcRequest, htab, setErrorResp]
  | some entry =>
    obtain ⟨h, allow⟩ := entry
    cases hout : h req.params with
    | ok p =>
      cases allow <;> cases coreReady <;>
        simp_all [processJsonRpcRequest, setResultResp, setErrorResp]
    | jsonErr e =>
      cases allow <;> cases coreReady <;>
        simp_all [processJsonRpcRequest, setResultResp, setErrorResp]
    | fault m =>
      cases allow <;> cases coreReady <;>
        simp_all [processJsonRpcRequest, setResultResp, setErrorResp]

/-! ## C6: the outer HTTP dispatch -/

/-- C6: for every inbound HTTP request, an unknown path yields 404 with no
handler run; a known path whose entry disallows a busy core, while the
node is neither in testnet mode nor reported synchronized, yields 500 with
body Core is busy and no handler run; otherwise the bound handler is
invoked. -/
theorem process_request_dispatch_c6 :
    ∀ (isTestnet isSynchronized : Bool) (url : String),
      (findHandler s_handlers url = none →
        processRequest isTestnet isSynchronized url = RequestOutcome.notFound) ∧
      (∀ allow, findHandler s_handlers url = some allow → allow = false →
        isTestnet = false → isSynchronized = false →
        processRequest isTestnet isSynchronized url =
          RequestOutcome.busyRejected 500 "Core is busy") ∧
      (∀ allow, findHandler s_handlers url = some allow →
        (allow = true ∨ isCoreReady isTestnet isSynchronized = true) →
        processRequest isTestnet isSynchronized url = RequestOutcome.invoked url) := by
  intro isTestnet isSynchronized url
  refine ⟨?_, ?_, ?_⟩
  · intro hnone
    unfold processRequest
    rw [hnone]
  · intro allow hsome hallow htn hsync
    unfold processRequest
    rw [hsome]
    simp [hallow, htn, hsync, isCoreReady]
  · intro allow hsome hready
    unfold processRequest
    rw [hsome]
    rcases hready with h | h <;> simp [h]

/-! ## C7: restricted mode blocks the operator methods -/

/-- C7: with restricted mode enabled, every call to start_mining,
stop_mining and stop_daemon fails immediately with status Failed,
restricted handle (returning false) and performs no miner or network-stack
operation: no address parsing, no miner start or stop, no stop signal. -/
theorem restricted_mode_blocks_operator_methods_c7
    (env : MiningEnv) (miner_address : String) (threads_count : Nat)
    (hr : env.restricted = true) :
    on_start_mining env miner_address threads_count =
      (false, "Failed, restricted handle", []) ∧
    on_stop_mining env = (false, "Failed, restricted handle", []) ∧
    on_stop_daemon env = (false, "Failed, restricted handle", []) := by
  unfold on_start_mining on_stop_mining on_stop_daemon
  rw [hr]
  exact ⟨rfl, rfl, rfl⟩

/-- Witness for C7 at a concrete restricted configuration. -/
theorem restricted_mode_blocks_operator_methods_c7_witness :
    on_start_mining sampleMiningEnv "KRBaddr" 4 =
      (false, "Failed, restricted handle", []) ∧
    on_stop_mining sampleMiningEnv = (false, "Failed, restricted handle", []) ∧
    on_stop_daemon sampleMiningEnv = (false, "Failed, restricted handle", []) :=
  restricted_mode_blocks_operator_methods_c7 sampleMiningEnv "KRBaddr" 4 rfl

/-! ## C5: the two payment-proof handlers agree -/

/-- Folding one more 64-bit addition onto an already reduced sum is the
reduced sum of the whole. -/
theorem add64_mod_right (a s : Nat) : add64 a (s % U64) = (a + s) % U64 := by
  have hU : U64 = 18446744073709551616 := by norm_num [U64]
  unfold add64
  rw [hU]
  omega

/-- The check_tx_key scan computes the matched outputs (with the key index
advanced over every output) and the sum of their amounts reduced modulo
2^64, as the 64-bit received counter holds it. -/
theorem checkTxKeyScan_spec (derive : Nat → Nat → Nat → Nat) (d s : Nat) :
    ∀ (outs : List TxOutput) (i : Nat),
      checkTxKeyScan derive d s outs i =
        (((matchedOutputsFrom derive d s i outs).map (fun o => o.amount)).sum % U64,
         matchedOutputsFrom derive d s i outs) := by
  intro outs
  induction outs with
  | nil =>
    intro i
    simp [checkTxKeyScan, matchedOutputsFrom, Nat.zero_mod]
  | cons o rest ih =>
    intro i
    simp only [checkTxKeyScan, matchedOutputsFrom, ih]
    cases htgt : o.target with
    | key outKey =>
      by_cases hd : derive d i s = outKey
      · simp [hd, add64_mod_right]
      · simp [hd]
    | multisig r ks => simp

/-- The check_tx_with_view_key scan computes the same pair as the
check_tx_key scan. -/
theorem checkTxViewKeyScan_spec (derive : Nat → Nat → Nat → Nat) (d s : Nat) :
    ∀ (outs : List TxOutput) (i : Nat),
      checkTxViewKeyScan derive d s outs i =
        (((matchedOutputsFrom derive d s i outs).map (fun o => o.amount)).sum % U64,
         matchedOutputsFrom derive d s i outs) := by
  intro outs
  induction outs with
  | nil =>
    intro i
    simp [checkTxViewKeyScan, matchedOutputsFrom, Nat.zero_mod]
  | cons o rest ih =>
    intro i
    simp only [checkTxViewKeyScan, matchedOutputsFrom, ih]
    cases htgt : o.target with
    | key outKey =>
      by_cases hd : derive d i s = outKey
      · simp [hd, add64_mod_right]
      · simp [hd]
    | multisig r ks => simp

/-- C5: for the same transaction found in the chain and matching key
material, meaning the elliptic-curve derivation obtained by
check_tx_key from (recipient view public key, transaction secret key)
equals the one obtained by check_tx_with_view_key from (transaction public
key taken from extra, recipient private view key), the two handlers
succeed with the same received amount and the same sequence of matching
outputs; both results are the scan that advances the derivation index over
all outputs and sums, in the 64-bit received counter, the amounts of
key-type outputs whose derived one-time key equals the output key. -/
theorem check_tx_key_and_view_key_agree_c5
    (env : PaymentProofEnv) (reqK : CheckTxKeyReq) (reqV : CheckTxViewKeyReq)
    (txid : Nat) (address : AccountPublicAddress) (tx_key viewKey : Nat)
    (tx : Transaction) (derivation : Nat)
    (h1 : env.parse_hash256 reqK.txid = some txid)
    (h2 : env.parse_hash256 reqV.txid = some txid)
    (h3 : env.parseAccountAddressString reqK.address = some address)
    (h4 : env.parseAccountAddressString reqV.address = some address)
    (h5 : env.fromHex32 reqK.txkey = some tx_key)
    (h6 : env.fromHex32 reqV.view_key = some viewKey)
    (h7 : env.getTransaction txid = some tx)
    (h8 : env.generate_key_derivation address.viewPublicKey tx_key = some derivation)
    (h9 : env.generate_key_derivation (env.getTransactionPublicKeyFromExtra tx.extra) viewKey
            = some derivation) :
    ∃ resK resV,
      k_on_check_tx_key env reqK = Except.ok resK ∧
      k_on_check_tx_with_view_key env reqV = Except.ok resV ∧
      resK.amount = resV.amount ∧
      resK.outputs = resV.outputs ∧
      resK.outputs =
        matchedOutputsFrom env.derive_public_key derivation address.spendPublicKey 0 tx.outputs ∧
      resK.amount =
        ((matchedOutputsFrom env.derive_public_key derivation address.spendPublicKey 0
            tx.outputs).map (fun o => o.amount)).sum % U64 := by
  have hK : k_on_check_tx_key env reqK = Except.ok
      { amount := ((matchedOutputsFrom env.derive_public_key derivation
          address.spendPublicKey 0 tx.outputs).map (fun o => o.amount)).sum % U64,
        outputs := matchedOutputsFrom env.derive_public_key derivation
          address.spendPublicKey 0 tx.outputs,
        status := CORE_RPC_STATUS_OK } := by
    unfold k_on_check_tx_key
    simp only [h1, h3, h5, h7, h8, checkTxKeyScan_spec]
  have hV : k_on_check_tx_with_view_key env reqV = Except.ok
      { amount := ((matchedOutputsFrom env.derive_public_key derivation
          address.spendPublicKey 0 tx.outputs).map (fun o => o.amount)).sum % U64,
        outputs := matchedOutputsFrom env.derive_public_key derivation
          address.spendPublicKey 0 tx.outputs,
        confirmations :=
          match env.getBlockContainingTx txid with
          | some br => env.observedHeight - br.2
          | none => 0,
        status := CORE_RPC_STATUS_OK } := by
    unfold k_on_check_tx_with_view_key
    simp only [h2, h4, h6, h7, h9, checkTxViewKeyScan_spec]
  exact ⟨_, _, hK, hV, rfl, rfl, rfl, rfl⟩

/-- Witness for C5: in the sample environment the transaction-key call and
the view-key call both find outputs 0 and 3 of the sample transaction and
report amount 13. -/
theorem check_tx_key_and_view_key_agree_c5_witness :
    ∃ resK resV,
      k_on_check_tx_key sampleProofEnv
        { txid := "t1", address := "ad", txkey := "k1" } = Except.ok resK ∧
      k_on_check_tx_with_view_key sampleProofEnv
        { txid := "t1", address := "ad", view_key := "k2" } = Except.ok resV ∧
      resK.amount = resV.amount ∧
      resK.outputs = resV.outputs ∧
      resK.outputs =
        matchedOutputsFrom sampleProofEnv.derive_public_key 44 3 0 sampleProofTx.outputs ∧
      resK.amount =
        ((matchedOutputsFrom sampleProofEnv.derive_public_key 44 3 0
            sampleProofTx.outputs).map (fun o => o.amount)).sum % U64 :=
  check_tx_key_and_view_key_agree_c5 sampleProofEnv
    { txid := "t1", address := "ad", txkey := "k1" }
    { txid := "t1", address := "ad", view_key := "k2" }
    7 { spendPublicKey := 3, viewPublicKey := 4 } 11 22 sampleProofTx 44
    (by decide) (by decide) (by decide) (by decide) (by decide) (by decide)
    (by decide) (by decide) (by decide)

/-! ## C8: the fee fields of the transaction short views -/

/-- A 64-bit accumulation stays below 2^64. -/
theorem foldl_add64_lt {α : Type} (f : α → Nat) (l : List α) :
    ∀ z, z < U64 → l.foldl (fun acc x => add64 acc (f x)) z < U64 := by
  induction l with
  | nil => intro z hz; simpa using hz
  | cons x rest ih =>
    intro z _
    simp only [List.foldl_cons]
    exact ih (add64 z (f x)) (Nat.mod_lt _ (by norm_num [U64]))

/-- The input sum of a transaction is below 2^64. -/
theorem get_inputs_money_amount_lt (tx : Transaction) :
    get_inputs_money_amount tx < U64 :=
  foldl_add64_lt inputAmount tx.inputs 0 (by norm_num [U64])

/-- The pool input sum of a transaction is below 2^64. -/
theorem getInputAmount_lt (tx : Transaction) : getInputAmount tx < U64 :=
  foldl_add64_lt inputAmount tx.inputs 0 (by norm_num [U64])

/-- 64-bit subtraction is exact subtraction when no borrow occurs. -/
theorem sub64_eq_sub (a b : Nat) (hba : b ≤ a) (ha : a < U64) :
    sub64 a b = a - b := by
  unfold sub64
  have h1 : a + U64 - b = (a - b) + U64 := by omega
  rw [h1, Nat.add_mod_right]
  exact Nat.mod_eq_of_lt (lt_of_le_of_lt (Nat.sub_le a b) ha)

/-- 64-bit addition is exact addition when no carry occurs. -/
theorem add64_eq_add (a b : Nat) (h : a + b < U64) : add64 a b = a + b :=
  Nat.mod_eq_of_lt h

/-- The pool fee expression equals the maximum of the minimum fee and the
exact fee, for sums without borrow or carry. -/
theorem pool_fee_eq_max (a b : Nat) (hba : b ≤ a) (ha : a < U64)
    (hb : b + MINIMUM_FEE < U64) :
    (if a < add64 b MINIMUM_FEE then MINIMUM_FEE else sub64 a b) =
      max MINIMUM_FEE (a - b) := by
  rw [add64_eq_add b MINIMUM_FEE hb]
  by_cases h : a < b + MINIMUM_FEE
  · rw [if_pos h]
    omega
  · rw [if_neg h, sub64_eq_sub a b hba ha]
    omega

/-- Mapping a projection over mapped rows is the pointwise composite (a
composition-free restatement of map_map used by the fee theorems). -/
theorem map_map_eq {α β γ : Type} (f : α → β) (g : β → γ) (h : α → γ) (l : List α)
    (he : ∀ x ∈ l, g (f x) = h x) : (l.map f).map g = l.map h := by
  induction l with
  | nil => rfl
  | cons x rest ih =>
    simp only [List.map_cons]
    rw [he x (List.mem_cons_self x rest), ih (fun y hy => he y (List.mem_cons_of_mem x hy))]

/-- The fee field of a pool row, as the source computes it. -/
theorem poolTxShortView_fee (env : ShortViewEnv) (tx : Transaction) :
    (poolTxShortView env tx).fee =
      if getInputAmount tx < add64 (getOutputAmount tx) MINIMUM_FEE then MINIMUM_FEE
      else sub64 (getInputAmount tx) (getOutputAmount tx) := by
  simp only [poolTxShortView]

/-- The fee field of a pool row is the maximum of the minimum fee and the
exact fee, for a transaction without deficit and with headroom for the
minimum-fee addition. -/
theorem poolTxShortView_fee_max (env : ShortViewEnv) (tx : Transaction)
    (hio : getOutputAmount tx ≤ getInputAmount tx)
    (hhead : getOutputAmount tx + MINIMUM_FEE < U64) :
    (poolTxShortView env tx).fee =
      max MINIMUM_FEE (getInputAmount tx - getOutputAmount tx) := by
  rw [poolTxShortView_fee]
  exact pool_fee_eq_max _ _ hio (getInputAmount_lt tx) hhead

/-- The fee field of a base-transaction row is 0. -/
theorem blockBaseTxShortView_fee (env : ShortViewEnv) (baseTransaction : Transaction) :
    (blockBaseTxShortView env baseTransaction).fee = 0 := by
  simp only [blockBaseTxShortView]

/-- The fee field of an included-transaction row is the exact fee for a
transaction without deficit. -/
theorem blockTxShortView_fee (env : ShortViewEnv) (tx : Transaction)
    (hio : get_outs_money_amount tx ≤ get_inputs_money_amount tx) :
    (blockTxShortView env tx).fee =
      get_inputs_money_amount tx - get_outs_money_amount tx := by
  have h : (blockTxShortView env tx).fee =
      sub64 (get_inputs_money_amount tx) (get_outs_money_amount tx) := by
    simp only [blockTxShortView]
  rw [h]
  exact sub64_eq_sub _ _ hio (get_inputs_money_amount_lt tx)

/-- The fee field of the txDetails view is the exact fee for a transaction
without deficit (the coinbase overwrite to 0 coincides there). -/
theorem f_on_transaction_json_details_fee (env : ShortViewEnv) (dtx : Transaction)
    (hdtx : get_outs_money_amount dtx ≤ get_inputs_money_amount dtx) :
    (f_on_transaction_json_details env dtx).fee =
      get_inputs_money_amount dtx - get_outs_money_amount dtx := by
  have h : (f_on_transaction_json_details env dtx).fee =
      if get_inputs_money_amount dtx = 0 then 0
      else sub64 (get_inputs_money_amount dtx) (get_outs_money_amount dtx) := by
    simp only [f_on_transaction_json_details]
  rw [h]
  by_cases h0 : get_inputs_money_amount dtx = 0
  · rw [if_pos h0]
    omega
  · rw [if_neg h0]
    exact sub64_eq_sub _ _ hdtx (get_inputs_money_amount_lt dtx)

/-- Counterexample to C8 as stated: a pool transaction whose input sum and
output sum are both 5 (so inputs minus outputs is 0) is reported by
f_on_pool_json with fee MINIMUM_FEE, not 0. -/
theorem pool_fee_not_inputs_minus_outputs_c8_cex :
    getInputAmount cexPoolTx = 5 ∧
    getOutputAmount cexPoolTx = 5 ∧
    (f_on_pool_json cexShortViewEnv [cexPoolTx]).1.map (fun r => r.fee) = [MINIMUM_FEE] ∧
    MINIMUM_FEE ≠ 5 - 5 := by
  refine ⟨by decide, by decide, ?_, by decide⟩
  simp only [f_on_pool_json, List.map_cons, List.map_nil, poolTxShortView_fee]
  norm_num [getInputAmount, getOutputAmount, cexPoolTx, add64, sub64, U64,
    MINIMUM_FEE, inputAmount]

/-- C8 amended: the pool listing reports, for each transaction whose
output sum does not exceed its input sum (and leaves headroom for the
minimum-fee addition), fee = max MINIMUM_FEE (inputs - outputs); the block
details view reports fee 0 for the coinbase row and fee = inputs - outputs
for every included transaction with outputs not exceeding inputs; the
transaction details view reports fee = inputs - outputs under the same
no-deficit hypothesis (its coinbase special case, forcing fee 0 when the
input sum is 0, coincides with inputs - outputs there). -/
theorem short_view_fee_amended_c8 (env : ShortViewEnv)
    (pool txs : List Transaction) (baseTransaction dtx : Transaction)
    (hpool : ∀ tx ∈ pool, getOutputAmount tx ≤ getInputAmount tx ∧
       getOutputAmount tx + MINIMUM_FEE < U64)
    (htxs : ∀ tx ∈ txs, get_outs_money_amount tx ≤ get_inputs_money_amount tx)
    (hdtx : get_outs_money_amount dtx ≤ get_inputs_money_amount dtx) :
    (f_on_pool_json env pool).1.map (fun r => r.fee) =
      pool.map (fun tx => max MINIMUM_FEE (getInputAmount tx - getOutputAmount tx)) ∧
    (f_on_block_json_transactions env baseTransaction txs).map (fun r => r.fee) =
      0 :: txs.map (fun tx => get_inputs_money_amount tx - get_outs_money_amount tx) ∧
    (f_on_transaction_json_details env dtx).fee =
      get_inputs_money_amount dtx - get_outs_money_amount dtx := by
  refine ⟨?_, ?_, ?_⟩
  · exact map_map_eq (poolTxShortView env) (fun r => r.fee) _ pool fun tx htx =>
      poolTxShortView_fee_max env tx (hpool tx htx).1 (hpool tx htx).2
  · show (blockBaseTxShortView env baseTransaction ::
        txs.map (blockTxShortView env)).map (fun r => r.fee) = _
    simp only [List.map_cons, blockBaseTxShortView_fee]
    exact congrArg (List.cons 0) (map_map_eq (blockTxShortView env) (fun r => r.fee) _ txs
      fun tx htx => blockTxShortView_fee env tx (htxs tx htx))
  · exact f_on_transaction_json_details_fee env dtx hdtx

/-- Witness for C8 amended at concrete transactions: the pool row of a
transaction paying MINIMUM_FEE + 5 in and 5 out reports its exact fee, the
block rows report 0 for the coinbase and 5 for a 7-in 2-out transaction,
and the details view reports 5 for the same transaction. -/
theorem short_view_fee_amended_c8_witness :
    (f_on_pool_json cexShortViewEnv [sampleFeePoolTx]).1.map (fun r => r.fee) =
      [sampleFeePoolTx].map
        (fun tx => max MINIMUM_FEE (getInputAmount tx - getOutputAmount tx)) ∧
    (f_on_block_json_transactions cexShortViewEnv cexPoolTx [sampleFeeTx]).map
        (fun r => r.fee) =
      0 :: [sampleFeeTx].map
        (fun tx => get_inputs_money_amount tx - get_outs_money_amount tx) ∧
    (f_on_transaction_json_details cexShortViewEnv sampleFeeTx).fee =
      get_inputs_money_amount sampleFeeTx - get_outs_money_amount sampleFeeTx :=
  short_view_fee_amended_c8 cexShortViewEnv [sampleFeePoolTx] [sampleFeeTx]
    cexPoolTx sampleFeeTx (by decide) (by decide) (by decide)

/-! ## C9: the size-mismatch status of on_get_transactions is overwritten -/

/-- When every hash string decodes, the parse loop succeeds, pushes one
hash per input, and its status assignments are exactly one size-mismatch
status per wrongly-sized entry. -/
theorem getTransactionsParseLoop_ok (env : GetTransactionsEnv) :
    ∀ l : List String, (∀ s ∈ l, (env.fromHex s).isSome = true) →
      ∃ hs hist, getTransactionsParseLoop env l = Except.ok (hs, hist) ∧
        hs.length = l.length ∧
        (("Failed, size of data mismatch" ∈ hist) ↔
          ∃ s ∈ l, ∃ b, env.fromHex s = some b ∧ b.length ≠ 32) := by
  intro l
  induction l with
  | nil =>
    intro _
    exact ⟨[], [], rfl, rfl, by simp⟩
  | cons s rest ih =>
    intro hall
    have hs1 : (env.fromHex s).isSome = true := hall s (List.mem_cons_self s rest)
    obtain ⟨b, hb⟩ := Option.isSome_iff_exists.mp hs1
    obtain ⟨hs, hist, hloop, hlen, hmem⟩ :=
      ih (fun t ht => hall t (List.mem_cons_of_mem s ht))
    refine ⟨env.hashOfBytes b :: hs,
      (if b.length ≠ 32 then ["Failed, size of data mismatch"] else []) ++ hist, ?_, ?_, ?_⟩
    · unfold getTransactionsParseLoop
      rw [hb, hloop]
    · simp [hlen]
    · by_cases hsz : b.length ≠ 32
      · simp only [if_pos hsz, List.cons_append, List.nil_append, List.mem_cons]
        refine ⟨fun _ => ⟨s, Or.inl rfl, b, hb, hsz⟩, fun _ => Or.inl (by simp)⟩
      · simp only [if_neg hsz, List.nil_append]
        rw [hmem]
        constructor
        · rintro ⟨t, ht, b2, hb2, hsz2⟩
          exact ⟨t, List.mem_cons_of_mem s ht, b2, hb2, hsz2⟩
        · rintro ⟨t, ht, b2, hb2, hsz2⟩
          rcases List.mem_cons.mp ht with heq | ht2
          · subst heq
            rw [hb] at hb2
            cases hb2
            exact absurd hsz2 hsz
          · exact ⟨t, ht2, b2, hb2, hsz2⟩

/-- C9: for every on_get_transactions request in which every hash string is
valid hex and some entry decodes to a byte length other than the 32-byte
hash size, the handler does not reject the request: the size-mismatch
status is assigned, the entry and the rest of the request are still
processed (one hash per input string reaches the engine lookup), and the
final status assignment is OK, so the mismatch is never reported. -/
theorem get_transactions_status_overwritten_c9 (env : GetTransactionsEnv)
    (txs_hashes : List String)
    (hdec : ∀ s ∈ txs_hashes, (env.fromHex s).isSome = true)
    (hmis : ∃ s ∈ txs_hashes, ∃ b, env.fromHex s = some b ∧ b.length ≠ 32) :
    "Failed, size of data mismatch" ∈ (on_get_transactions env txs_hashes).1.statusHistory ∧
    (on_get_transactions env txs_hashes).1.statusHistory.getLast? = some CORE_RPC_STATUS_OK ∧
    (on_get_transactions env txs_hashes).2.length = txs_hashes.length := by
  obtain ⟨hs, hist, hloop, hlen, hmem⟩ := getTransactionsParseLoop_ok env txs_hashes hdec
  unfold on_get_transactions
  rw [hloop]
  refine ⟨?_, ?_, ?_⟩
  · simp only [List.mem_append]
    exact Or.inl (hmem.mpr hmis)
  · simp
  · exact hlen

/-- Witness for C9: a request whose first string decodes to 32 bytes and
whose second decodes to 2 bytes; the mismatch status is assigned and then
overwritten by OK, with both hashes still looked up. -/
theorem get_transactions_status_overwritten_c9_witness :
    "Failed, size of data mismatch" ∈
      (on_get_transactions sampleGetTxsEnv ["full", "short"]).1.statusHistory ∧
    (on_get_transactions sampleGetTxsEnv ["full", "short"]).1.statusHistory.getLast? =
      some CORE_RPC_STATUS_OK ∧
    (on_get_transactions sampleGetTxsEnv ["full", "short"]).2.length = 2 :=
  get_transactions_status_overwritten_c9 sampleGetTxsEnv ["full", "short"]
    (by decide) ⟨"short", by decide, [1, 2], by decide, by decide⟩

/-! ## C10: the blocks-list loop -/

/-- The descending loop from `i` down to `last` succeeds when every block
lookup does, and lists exactly the heights i, i - 1, ..., last. -/
theorem blocksListLoop_ok (env : BlocksListEnv)
    (hlook : ∀ hsh, (env.getBlockByHash hsh).isSome = true) (last : Nat) :
    ∀ i, last ≤ i →
      ∃ rows, blocksListLoop env last i = Except.ok rows ∧
        rows.length = i - last + 1 ∧
        rows.map (fun r => r.height) = (List.range (i - last + 1)).map (fun j => i - j) := by
  intro i
  induction i with
  | zero =>
    intro hle
    obtain ⟨blk, hblk⟩ :=
      Option.isSome_iff_exists.mp (hlook (env.getBlockIdByHeight 0))
    refine ⟨[mkBlockShort env 0 (env.getBlockIdByHeight 0) blk], ?_, by simp, by simp [mkBlockShort]⟩
    unfold blocksListLoop
    simp [hblk]
  | succ i ih =>
    intro hle
    obtain ⟨blk, hblk⟩ :=
      Option.isSome_iff_exists.mp (hlook (env.getBlockIdByHeight (i + 1)))
    by_cases hlast : last ≤ i
    · obtain ⟨rows, hloop, hlen, hmap⟩ := ih hlast
      refine ⟨mkBlockShort env (i + 1) (env.getBlockIdByHeight (i + 1)) blk :: rows, ?_, ?_, ?_⟩
      · unfold blocksListLoop
        simp [hblk, hlast, hloop]
      · simp only [List.length_cons, hlen]
        omega
      · have hn : (i + 1) - last + 1 = ((i - last + 1) + 1) := by omega
        rw [hn, List.range_succ_eq_map]
        simp only [List.map_cons, List.map_map, mkBlockShort]
        refine congrArg₂ List.cons (by omega) ?_
        rw [hmap]
        apply List.map_congr_left
        intro j hj
        simp only [Function.comp_apply]
        omega
    · have hlasteq : last = i + 1 := by omega
      refine ⟨[mkBlockShort env (i + 1) (env.getBlockIdByHeight (i + 1)) blk], ?_, ?_, ?_⟩
      · unfold blocksListLoop
        simp [hblk, hlast]
      · simp [hlasteq]
      · simp [hlasteq, mkBlockShort, List.range_succ]

/-- C10: for every f_blocks_list_json request with height strictly below
the current blockchain height (and a chain serving every block lookup),
the response contains exactly min (height + 1) 31 block summaries whose
height fields are height, height - 1, ..., in strictly descending order
starting at the requested height; the descending loop terminates, its
explicit break at height 0 replacing the unsigned wraparound of the C
counter. -/
theorem blocks_list_count_and_order_c10 (env : BlocksListEnv) (height : Nat)
    (hh : height < env.currentHeight)
    (hlook : ∀ hsh, (env.getBlockByHash hsh).isSome = true) :
    ∃ res, f_on_blocks_list_json env height = Except.ok res ∧
      res.blocks.length = min (height + 1) 31 ∧
      res.blocks.map (fun r => r.height) =
        (List.range (min (height + 1) 31)).map (fun j => height - j) := by
  have hlast : (if height ≤ 30 then 0 else height - 30) ≤ height := by
    by_cases h : height ≤ 30 <;> simp [h]
  obtain ⟨rows, hloop, hlen, hmap⟩ :=
    blocksListLoop_ok env hlook (if height ≤ 30 then 0 else height - 30) height hlast
  have hcount : height - (if height ≤ 30 then 0 else height - 30) + 1 = min (height + 1) 31 := by
    rcases le_or_lt height 30 with h | h
    · simp [h]
    · rw [if_neg (by omega)]
      omega
  refine ⟨{ blocks := rows, status := CORE_RPC_STATUS_OK }, ?_, ?_, ?_⟩
  · unfold f_on_blocks_list_json
    rw [if_neg (by omega)]
    simp only [hloop]
  · rw [hlen, hcount]
  · rw [hmap, hcount]

/-- Witness for C10 at height 2 of the 100-block sample chain: three rows
with heights 2, 1, 0. -/
theorem blocks_list_count_and_order_c10_witness :
    ∃ res, f_on_blocks_list_json sampleBlocksListEnv 2 = Except.ok res ∧
      res.blocks.length = min (2 + 1) 31 ∧
      res.blocks.map (fun r => r.height) =
        (List.range (min (2 + 1) 31)).map (fun j => 2 - j) :=
  blocks_list_count_and_order_c10 sampleBlocksListEnv 2 (by decide) (fun _ => rfl)

end KarboRpc
